import Mathlib

/-!
Verification development for the onboarding flow of `app/api/onboarding.py`.

The Python module implements a session-scoped login state machine:
`ui_start_add_account` (start), `ui_confirm_code` (resume) and `ui_cancel`
(cancel), backed by one JSON file per session (helpers `_new_onb`,
`_save_onb`, `_load_onb`, `_delete_onb`, `_append_log`).

Shallow embedding conventions:
- The onboarding directory is an association list from file key (the session
  id) to file content; a file is either a parseable full record or corrupt
  JSON (`json.loads` failure, which `_load_onb` maps to `None`).
- The external `instagrapi.Client` is modelled by its observable behaviour:
  small inductive types enumerate what each provider call does (returns a
  boolean, raises `TwoFactorRequired` or `ChallengeRequired`, invokes the
  injected challenge-code handler, or raises some other exception).
- The account pool (`pool.add_account`) is modelled as a sink list that
  accumulates the argument triples; its boolean result comes from the
  environment.
- `time.strftime` and `uuid4` are oracles in the environment; the world
  carries a tick that advances on each timestamp read.
- The HTML pages returned by the endpoints are abstracted to the outcome
  vocabulary {SUCCESS, NEEDS_CHALLENGE, NEEDS_TWO_FACTOR, FAILURE,
  NOT_FOUND, CANCELED}; the FAILURE payload records the session id exactly
  when the page embeds it (the resume retry form does, the start error page
  does not).
- Each provider invocation is recorded in a call trace so that claims about
  which provider operations run (and in which order) are statable.
-/

/-- One onboarding session record, as serialized by `_new_onb` /
`_save_onb` to the per-session JSON file.  Python stores a dict; records
written by this module always carry all eight keys, so a full structure is
faithful. -/
structure OnbData where
  id : String
  username : String
  password : String
  proxy : Option String
  status : String
  flow : Option String
  logs : List String
  created_at : Nat
deriving DecidableEq, Repr

/-- Content of a session file: a parseable record, or corrupt JSON
(anything `json.loads` rejects). -/
inductive FileContent where
  | corrupt : FileContent
  | record : OnbData → FileContent
deriving DecidableEq, Repr

/-- The onboarding directory, keyed by session id (Python:
`_ONB_DIR / f(onb_id).json`). -/
abbrev Store := List (String × FileContent)

/-- Read a file if it exists (`Path.exists` + `read_text`). -/
def store_get : Store → String → Option FileContent
  | [], _ => none
  | (k, v) :: rest, key => if k = key then some v else store_get rest key

/-- `write_text`: overwrite the file if present, create it otherwise. -/
def store_set : Store → String → FileContent → Store
  | [], key, v => [(key, v)]
  | (k, w) :: rest, key, v =>
      if k = key then (key, v) :: rest else (k, w) :: store_set rest key v

/-- `unlink(missing_ok=True)`: remove the file if present. -/
def store_del : Store → String → Store
  | [], _ => []
  | (k, w) :: rest, key =>
      if k = key then store_del rest key else (k, w) :: store_del rest key

/-- Trace entries for the provider calls the endpoints perform. -/
inductive PCall where
  | loginCall : PCall
  | twoFactorResolve : String → PCall
  | challengeResolvePos : String → PCall
  | challengeResolveNamed : String → PCall
deriving DecidableEq, Repr

/-- The mutable world threaded through the endpoints: the session store,
the account-pool sink (argument triples of `pool.add_account` calls in
order), the provider call trace, and the timestamp tick. -/
structure World where
  store : Store
  sink : List (String × String × Option String)
  calls : List PCall
  tick : Nat
deriving DecidableEq, Repr

/-- Observable outcome of an endpooint invocation (the HTML page class the
Python code renders). -/
inductive Outcome where
  | SUCCESS : Outcome
  | NEEDS_CHALLENGE : String → Outcome
  | NEEDS_TWO_FACTOR : String → Outcome
  | FAILURE : Option String → String → Outcome
  | NOT_FOUND : Outcome
  | CANCELED : Outcome
deriving DecidableEq, Repr

/-- Environment oracles: the uuid for the next session, `time.time()`,
`time.strftime` as a function of the tick, whether `cl.set_proxy` raises
(and with what message), and the boolean returned by
`pool.add_account`. -/
structure Env where
  newId : String
  now : Nat
  tsOf : Nat → String
  setProxyError : Option String
  addAccountResult : Bool

/-- Python truthiness of an optional string (`if proxy:`): `None` and the
empty string are falsy. -/
def pyTruthy : Option String → Bool
  | none => false
  | some s => !(s == "")

/-- How Python f-strings render an optional value (`None` for null). -/
def optStr : Option String → String
  | none => "None"
  | some s => s

/-- The `_append_log` entry format: `[HH:MM:SS] message`. -/
def fmt_log (ts msg : String) : String := "[" ++ ts ++ "] " ++ msg

/-- `_load_onb`: `None` when the file is missing or the JSON is
unparseable, the record otherwise. -/
def _load_onb (s : Store) (onb_id : String) : Option OnbData :=
  match store_get s onb_id with
  | some (FileContent.record d) => some d
  | some FileContent.corrupt => none
  | none => none

/-- `_save_onb`: serialize the record to the session file. -/
def _save_onb (w : World) (onb_id : String) (d : OnbData) : World :=
  { w with store := store_set w.store onb_id (FileContent.record d) }

/-- `_delete_onb`: `unlink(missing_ok=True)`. -/
def _delete_onb (w : World) (onb_id : String) : World :=
  { w with store := store_del w.store onb_id }

/-- Append one formatted entry to the logs of a record
(`data.setdefault("logs", []).append(...)`). -/
def pushLog (d : OnbData) (ts msg : String) : OnbData :=
  { d with logs := d.logs ++ [fmt_log ts msg] }

/-- `_append_log`: load, append one `[HH:MM:SS] msg` entry, re-save;
silent no-op when the load yields nothing. -/
def _append_log (e : Env) (w : World) (onb_id msg : String) : World :=
  match _load_onb w.store onb_id with
  | none => w
  | some d =>
      _save_onb { w with tick := w.tick + 1 } onb_id (pushLog d (e.tsOf w.tick) msg)

/-- The record `_new_onb` builds: status INIT, null flow, empty log.
Python stores `proxy.strip() if proxy else None`. -/
def initRecord (e : Env) (username password : String) (proxy : Option String) : OnbData :=
  { id := e.newId
    username := username.trim
    password := password
    proxy := if pyTruthy proxy then some ((proxy.getD "").trim) else none
    status := "INIT"
    flow := none
    logs := []
    created_at := e.now }

/-- `_new_onb`: create the INIT record and persist it. -/
def _new_onb (e : Env) (w : World) (username password : String)
    (proxy : Option String) : String × World :=
  let onb_id := e.newId
  (onb_id, _save_onb w onb_id (initRecord e username password proxy))

/-- The record Python builds when `_load_onb(onb_id) or \x7b\x7d` falls back
to an empty dict: modelled as a record with empty defaults (the Python dict
would hold only the two keys the handler then assigns). -/
def emptyDict : OnbData :=
  { id := "", username := "", password := "", proxy := none,
    status := "", flow := none, logs := [], created_at := 0 }

/-- The shared body of the two verification-required handlers in
`ui_start_add_account`: reload the record (falling back to an empty dict),
set `status = NEED_CODE` and `flow`, save. -/
def set_need_code (w : World) (onb_id flowName : String) : World :=
  let data := (_load_onb w.store onb_id).getD emptyDict
  _save_onb w onb_id { data with status := "NEED_CODE", flow := some flowName }

/-- Observable behaviour of `cl.login` during `ui_start_add_account`,
with `challenge_code_handler` set to `_prelogin_handler`:
`ok b` = returns `b` without exception; `handlerChallenge choice` = the
provider invokes the handler with that choice, and the handler (after
logging) raises `ChallengeRequired` which propagates; `raisesTwoFactor`,
`raisesChallenge` = the provider raises those directly; `raisesOther msg` =
any other exception with message `msg`. -/
inductive StartLogin where
  | ok : Bool → StartLogin
  | handlerChallenge : String → StartLogin
  | raisesTwoFactor : String → StartLogin
  | raisesChallenge : String → StartLogin
  | raisesOther : String → StartLogin
deriving DecidableEq, Repr

/-- The part of `ui_start_add_account` before `cl.login` returns: create
the session, log the start, optionally log and configure the proxy, log the
attempt, invoke login (recorded in the call trace). -/
def start_prelude (e : Env) (w0 : World) (username password : String)
    (proxy : Option String) : String × World :=
  let r := _new_onb e w0 username password proxy
  let onb_id := r.1
  let w := _append_log e r.2 onb_id ("Iniciando login para @" ++ username)
  let w :=
    if pyTruthy proxy then
      _append_log e w onb_id ("Proxy informado: " ++ proxy.getD "")
    else w
  let w :=
    if pyTruthy proxy then
      match e.setProxyError with
      | none => _append_log e w onb_id "Proxy configurado com sucesso"
      | some err => _append_log e w onb_id ("[WARN] Proxy inválido: " ++ err)
    else w
  let w := _append_log e w onb_id "Tentando login direto…"
  let w := { w with calls := w.calls ++ [PCall.loginCall] }
  (onb_id, w)

/-- The `except ChallengeRequired` handler of `ui_start_add_account`:
persist NEED_CODE/CHALLENGE, log the event and the secondary-inbox hint,
render the code form. -/
def challenge_need_code (e : Env) (w : World) (onb_id : String) : Outcome × World :=
  let w := set_need_code w onb_id "CHALLENGE"
  let w := _append_log e w onb_id "⚠️ Challenge requerido — Instagram enviará um código (email/SMS)"
  let w := _append_log e w onb_id "Dica: verifique também a pasta de SPAM / promoções do e-mail."
  (Outcome.NEEDS_CHALLENGE onb_id, w)

/-- `ui_start_add_account` (`POST /adicionar-insta/iniciar`). -/
def ui_start_add_account (e : Env) (prov : StartLogin) (w0 : World)
    (username password : String) (proxy : Option String) : Outcome × World :=
  let r := start_prelude e w0 username password proxy
  let onb_id := r.1
  let w := r.2
  match prov with
  | StartLogin.ok true =>
      let w := _append_log e w onb_id "Login concluído com sucesso"
      let w := { w with sink := w.sink ++ [(username, password, proxy)] }
      let w := _append_log e w onb_id
        (if e.addAccountResult then "Conta adicionada ao pool"
         else "Conta já no pool ou não pôde ser adicionada novamente")
      let w := _delete_onb w onb_id
      (Outcome.SUCCESS, w)
  | StartLogin.ok false =>
      let w := _append_log e w onb_id
        "[ERRO] Falha ao iniciar o login: Falha no login (sem desafio)"
      (Outcome.FAILURE none "Falha no login (sem desafio)", w)
  | StartLogin.raisesTwoFactor _ =>
      let w := set_need_code w onb_id "TWO_FACTOR"
      let w := _append_log e w onb_id "⚠️ 2FA requerido (use o código do app autenticador/SMS)"
      (Outcome.NEEDS_TWO_FACTOR onb_id, w)
  | StartLogin.handlerChallenge choice =>
      let w := _append_log e w onb_id
        ("Challenge detectado (método: " ++ choice ++ "). Aguardando código na interface…")
      challenge_need_code e w onb_id
  | StartLogin.raisesChallenge _ =>
      challenge_need_code e w onb_id
  | StartLogin.raisesOther msg =>
      let w := _append_log e w onb_id ("[ERRO] Falha ao iniciar o login: " ++ msg)
      (Outcome.FAILURE none msg, w)

/-- Behaviour of the re-triggering `cl.login` in the TWO_FACTOR resume
branch: returns (result ignored), raises `TwoFactorRequired` (swallowed),
or raises anything else (propagates to the outer handler). -/
inductive TFLogin where
  | ok : Bool → TFLogin
  | raisesTwoFactor : TFLogin
  | raisesOther : String → TFLogin
deriving DecidableEq, Repr

/-- Behaviour of `cl.two_factor_login(code)`. -/
inductive TFResolve where
  | ok : Bool → TFResolve
  | raises : String → TFResolve
deriving DecidableEq, Repr

/-- Behaviour of `cl.login` in the CHALLENGE resume branch, with the
code-returning handler installed: the handler-invocation choices (each one
appends a log entry), then the result. -/
inductive ChLogin where
  | ok : List String → Bool → ChLogin
  | raisesChallenge : List String → ChLogin
  | raisesOther : List String → String → ChLogin
deriving DecidableEq, Repr

/-- Behaviour of the named-argument fallback
`cl.challenge_resolve(code=code)`. -/
inductive ChNamed where
  | ok : Bool → ChNamed
  | raises : String → ChNamed
deriving DecidableEq, Repr

/-- Behaviour of the positional fallback `cl.challenge_resolve(code)`:
returns, raises `TypeError` (then the named form runs), or raises anything
else. -/
inductive ChResolve where
  | ok : Bool → ChResolve
  | typeErrorThen : ChNamed → ChResolve
  | raises : String → ChResolve
deriving DecidableEq, Repr

/-- All provider behaviour an `ui_confirm_code` invocation can consult. -/
structure ResumeProv where
  tfLogin : TFLogin
  tfResolve : TFResolve
  chLogin : ChLogin
  chResolve : ChResolve
deriving DecidableEq, Repr

/-- The log entries the CHALLENGE handler `_handler` writes, one per
provider solicitation. -/
def handler_logs (e : Env) (onb_id : String) : World → List String → World
  | w, [] => w
  | w, c :: rest =>
      handler_logs e onb_id
        (_append_log e w onb_id ("Instagram solicitou código via método: " ++ c)) rest

/-- Tail shared by both success paths of `ui_confirm_code`: register the
account in the pool, log the result, delete the session, render success. -/
def register_and_finish (e : Env) (w : World) (onb_id username password : String)
    (proxy : Option String) : Outcome × World :=
  let w := { w with sink := w.sink ++ [(username, password, proxy)] }
  let w := _append_log e w onb_id
    (if e.addAccountResult then "Conta adicionada ao pool"
     else "Conta já estava no pool ou não pôde ser registrada novamente")
  let w := _delete_onb w onb_id
  (Outcome.SUCCESS, w)

/-- The outer `except Exception` handler of `ui_confirm_code`: log the
error and render the retry form (which embeds the session id). -/
def confirm_fail (e : Env) (w : World) (onb_id msg : String) : Outcome × World :=
  let w := _append_log e w onb_id ("[ERRO] Falha na confirmação do código: " ++ msg)
  (Outcome.FAILURE (some onb_id) msg, w)

/-- The part of `ui_confirm_code` between the successful load and the flow
branch: log the received code, optionally reconfigure and log the proxy. -/
def resume_prelude (e : Env) (w0 : World) (onboarding_id : String) (data : OnbData) : World :=
  let w := _append_log e w0 onboarding_id
    ("Recebido código para @" ++ data.username ++ ". Tentando concluir " ++ optStr data.flow ++ "…")
  if pyTruthy data.proxy then
    match e.setProxyError with
    | none => _append_log e w onboarding_id "Proxy configurado novamente para concluir verificação"
    | some err => _append_log e w onboarding_id ("[WARN] Proxy inválido ao confirmar: " ++ err)
  else w

/-- The TWO_FACTOR branch of `ui_confirm_code`: re-trigger login (a
`TwoFactorRequired` is swallowed, any other exception propagates to the
outer handler), then `two_factor_login(code)`; a false result or an
exception raises `LoginRequired("2FA não aceito")`. -/
def tf_branch (e : Env) (p : ResumeProv) (w : World)
    (onboarding_id username password : String) (proxy : Option String)
    (code : String) : Outcome × World :=
  let w := { w with calls := w.calls ++ [PCall.loginCall] }
  match p.tfLogin with
  | TFLogin.raisesOther msg => confirm_fail e w onboarding_id msg
  | _ =>
    let w := { w with calls := w.calls ++ [PCall.twoFactorResolve code] }
    let okw : Bool × World :=
      match p.tfResolve with
      | TFResolve.ok b => (b, w)
      | TFResolve.raises msg =>
          (false, _append_log e w onboarding_id ("[WARN] two_factor_login falhou: " ++ msg))
    if okw.1 then
      let w := _append_log e okw.2 onboarding_id "2FA validado com sucesso"
      register_and_finish e w onboarding_id username password proxy
    else
      confirm_fail e okw.2 onboarding_id "2FA não aceito"

/-- The login-with-handler step of the CHALLENGE branch: a
`ChallengeRequired` maps to a false result, any other exception is logged
as a warning with a false result. -/
def ch_login_step (e : Env) (p : ResumeProv) (w : World) (onboarding_id : String) :
    Bool × World :=
  match p.chLogin with
  | ChLogin.ok hc b => (b, handler_logs e onboarding_id w hc)
  | ChLogin.raisesChallenge hc => (false, handler_logs e onboarding_id w hc)
  | ChLogin.raisesOther hc msg =>
      (false, _append_log e (handler_logs e onboarding_id w hc) onboarding_id
        ("[WARN] login com handler falhou: " ++ msg))

/-- The explicit challenge-resolution fallback: `challenge_resolve(code)`
first; on `TypeError`, `challenge_resolve(code=code)`; any other exception
on either call is logged as a warning with a false result. -/
def ch_fallback (e : Env) (p : ResumeProv) (w : World) (onboarding_id code : String) :
    Bool × World :=
  let w2 := { w with calls := w.calls ++ [PCall.challengeResolvePos code] }
  match p.chResolve with
  | ChResolve.ok b => (b, w2)
  | ChResolve.typeErrorThen second =>
    let w3 := { w2 with calls := w2.calls ++ [PCall.challengeResolveNamed code] }
    match second with
    | ChNamed.ok b => (b, w3)
    | ChNamed.raises msg =>
        (false, _append_log e w3 onboarding_id ("[WARN] challenge_resolve falhou: " ++ msg))
  | ChResolve.raises msg =>
      (false, _append_log e w2 onboarding_id ("[WARN] challenge_resolve falhou: " ++ msg))

/-- The CHALLENGE branch of `ui_confirm_code`: login with the
code-returning handler, fall back to an explicit `challenge_resolve` when
that does not succeed; overall failure raises
`LoginRequired("Challenge não aceito")`. -/
def ch_branch (e : Env) (p : ResumeProv) (w : World)
    (onboarding_id username password : String) (proxy : Option String)
    (code : String) : Outcome × World :=
  let w := { w with calls := w.calls ++ [PCall.loginCall] }
  let okw := ch_login_step e p w onboarding_id
  let okw2 := if okw.1 then okw else ch_fallback e p okw.2 onboarding_id code
  if okw2.1 then
    let w := _append_log e okw2.2 onboarding_id "Challenge validado com sucesso"
    register_and_finish e w onboarding_id username password proxy
  else
    confirm_fail e okw2.2 onboarding_id "Challenge não aceito"

/-- `ui_confirm_code` (`POST /adicionar-insta/confirmar`).  Note the branch
is on `flow` (`data.get("flow", "CHALLENGE")`), never on `status`: anything
other than TWO_FACTOR — including a null flow — takes the CHALLENGE
branch. -/
def ui_confirm_code (e : Env) (p : ResumeProv) (w0 : World)
    (onboarding_id code : String) : Outcome × World :=
  match _load_onb w0.store onboarding_id with
  | none => (Outcome.NOT_FOUND, w0)
  | some data =>
    let w := resume_prelude e w0 onboarding_id data
    if data.flow = some "TWO_FACTOR" then
      tf_branch e p w onboarding_id data.username data.password data.proxy code
    else
      ch_branch e p w onboarding_id data.username data.password data.proxy code

/-- `ui_cancel` (`POST /adicionar-insta/cancelar`). -/
def ui_cancel (e : Env) (w : World) (onboarding_id : String) : Outcome × World :=
  match _load_onb w.store onboarding_id with
  | some _ =>
      let w2 := _append_log e w onboarding_id "Sessão cancelada pelo usuário"
      (Outcome.CANCELED, _delete_onb w2 onboarding_id)
  | none => (Outcome.CANCELED, w)

/-- Whether the CHALLENGE-branch login-with-handler step yields success. -/
def chLoginOk : ChLogin → Bool
  | ChLogin.ok _ b => b
  | _ => false

/-- Whether the challenge-resolve fallback yields success. -/
def chResolveOk : ChResolve → Bool
  | ChResolve.ok b => b
  | ChResolve.typeErrorThen (ChNamed.ok b) => b
  | _ => false

/-- Whether the re-triggering login of the TWO_FACTOR branch raises an
exception that propagates. -/
def tfLoginRaises : TFLogin → Bool
  | TFLogin.raisesOther _ => true
  | _ => false

/-- Whether `two_factor_login` yields success. -/
def tfResolveOk : TFResolve → Bool
  | TFResolve.ok b => b
  | _ => false

/-- Whether a resume with provider behaviour `p` on a session whose flow is
`flow` ends in the success path. -/
def resumeAccepts (flow : Option String) (p : ResumeProv) : Bool :=
  if flow = some "TWO_FACTOR" then
    !(tfLoginRaises p.tfLogin) && tfResolveOk p.tfResolve
  else
    chLoginOk p.chLogin || chResolveOk p.chResolve

/-- The named-convention fallback call, present exactly when the positional
convention raised `TypeError`. -/
def namedSuffix (r : ChResolve) (code : String) : List PCall :=
  match r with
  | ChResolve.typeErrorThen _ => [PCall.challengeResolveNamed code]
  | _ => []

/-- The provider calls one `ch_fallback` invocation performs. -/
def fallbackCalls (r : ChResolve) (code : String) : List PCall :=
  PCall.challengeResolvePos code :: namedSuffix r code

/-- The challenge-resolution fallback calls a CHALLENGE-branch resume
performs after the login-with-handler step. -/
def resolveCallsCh (p : ResumeProv) (code : String) : List PCall :=
  if chLoginOk p.chLogin then []
  else fallbackCalls p.chResolve code

/-- All provider calls one resume performs, by flow. -/
def resumeCalls (flow : Option String) (p : ResumeProv) (code : String) : List PCall :=
  if flow = some "TWO_FACTOR" then
    if tfLoginRaises p.tfLogin then [PCall.loginCall]
    else [PCall.loginCall, PCall.twoFactorResolve code]
  else
    PCall.loginCall :: resolveCallsCh p code

/-- A world obtained from `w0` by overwriting the record at `k` with `d`,
extending the sink by `se`, the call trace by `ce` and the tick by `n`.
Normal form for the intermediate states of the endpoints. -/
def midWorld (w0 : World) (k : String) (d : OnbData)
    (se : List (String × String × Option String)) (ce : List PCall) (n : Nat) : World :=
  { store := store_set w0.store k (FileContent.record d),
    sink := w0.sink ++ se,
    calls := w0.calls ++ ce,
    tick := w0.tick + n }

/-- The record-level invariant of section 3 of the design: the flow field
is set exactly when the session waits for a code. -/
def flowInv (d : OnbData) : Prop :=
  d.flow.isSome = true ↔ d.status = "NEED_CODE"

/-- Every parseable record in the store satisfies `flowInv`. -/
def StoreInv (s : Store) : Prop :=
  ∀ k d, store_get s k = some (FileContent.record d) → flowInv d

/-! ### Concrete sample data for closed instances -/

/-- A sample environment: fixed uuid, constant clock, working proxy
configuration, pool accepting the account. -/
def envA : Env :=
  { newId := "new-id", now := 0, tsOf := fun _ => "12:00:00",
    setProxyError := none, addAccountResult := true }

/-- The empty world: no sessions, empty sink and trace. -/
def wEmpty : World := { store := [], sink := [], calls := [], tick := 0 }

/-- A session waiting for a two-factor code. -/
def dTF : OnbData :=
  { id := "sid", username := "u", password := "pw", proxy := none,
    status := "NEED_CODE", flow := some "TWO_FACTOR", logs := [], created_at := 0 }

/-- A world holding only the two-factor session `dTF`. -/
def wTF : World := { store := [("sid", FileContent.record dTF)], sink := [], calls := [], tick := 0 }

/-- A session left in INIT by a generic start failure (null flow). -/
def dInit : OnbData :=
  { id := "sid", username := "u", password := "pw", proxy := none,
    status := "INIT", flow := none, logs := [], created_at := 0 }

/-- A world holding only the INIT session `dInit`. -/
def wInit : World := { store := [("sid", FileContent.record dInit)], sink := [], calls := [], tick := 0 }

/-- A session waiting for a challenge code. -/
def dCh : OnbData :=
  { id := "sid", username := "u", password := "pw", proxy := none,
    status := "NEED_CODE", flow := some "CHALLENGE", logs := [], created_at := 0 }

/-- A world holding only the challenge session `dCh`. -/
def wCh : World := { store := [("sid", FileContent.record dCh)], sink := [], calls := [], tick := 0 }

/-- A world whose only session file is corrupt JSON. -/
def wCorrupt : World := { store := [("bad", FileContent.corrupt)], sink := [], calls := [], tick := 0 }

/-- A provider that rejects every code (login succeeds on re-trigger, all
resolutions return false). -/
def pRej : ResumeProv :=
  { tfLogin := TFLogin.ok true, tfResolve := TFResolve.ok false,
    chLogin := ChLogin.ok [] false, chResolve := ChResolve.ok false }

/-- A provider that accepts the code in both flows (the challenge branch
through the explicit fallback). -/
def pAcc : ResumeProv :=
  { tfLogin := TFLogin.ok true, tfResolve := TFResolve.ok true,
    chLogin := ChLogin.ok [] false, chResolve := ChResolve.ok true }

/-- A provider whose positional `challenge_resolve` raises `TypeError` and
whose named form returns false. -/
def pTypeErr : ResumeProv :=
  { tfLogin := TFLogin.ok true, tfResolve := TFResolve.ok false,
    chLogin := ChLogin.raisesChallenge [], chResolve := ChResolve.typeErrorThen (ChNamed.ok false) }

/-! ### Store lemmas -/

theorem store_get_set_self (s : Store) (k : String) (v : FileContent) :
    store_get (store_set s k v) k = some v := by
  induction s with
  | nil => simp [store_set, store_get]
  | cons kv rest ih =>
    obtain ⟨k0, v0⟩ := kv
    by_cases h : k0 = k
    · simp [store_set, store_get, h]
    · simp [store_set, store_get, h, ih]

theorem store_get_set_ne (s : Store) {k k2 : String} (v : FileContent) (h : k2 ≠ k) :
    store_get (store_set s k v) k2 = store_get s k2 := by
  induction s with
  | nil => simp [store_set, store_get, Ne.symm h]
  | cons kv rest ih =>
    obtain ⟨k0, v0⟩ := kv
    by_cases h0 : k0 = k
    · subst h0
      simp [store_set, store_get, h, Ne.symm h]
    · by_cases h2 : k0 = k2 <;> simp [store_set, store_get, h0, h2, h, ih]

theorem store_set_set (s : Store) (k : String) (v v2 : FileContent) :
    store_set (store_set s k v) k v2 = store_set s k v2 := by
  induction s with
  | nil => simp [store_set]
  | cons kv rest ih =>
    obtain ⟨k0, v0⟩ := kv
    by_cases h : k0 = k
    · simp [store_set, h]
    · simp [store_set, h, ih]

theorem store_get_del_self (s : Store) (k : String) :
    store_get (store_del s k) k = none := by
  induction s with
  | nil => simp [store_del, store_get]
  | cons kv rest ih =>
    obtain ⟨k0, v0⟩ := kv
    by_cases h : k0 = k
    · simp [store_del, h, ih]
    · simp [store_del, store_get, h, ih]

theorem store_del_set (s : Store) (k : String) (v : FileContent) :
    store_del (store_set s k v) k = store_del s k := by
  induction s with
  | nil => simp [store_del, store_set]
  | cons kv rest ih =>
    obtain ⟨k0, v0⟩ := kv
    by_cases h : k0 = k
    · simp [store_del, store_set, h]
    · simp [store_del, store_set, h, ih]

theorem store_set_of_get (s : Store) {k : String} {v : FileContent}
    (h : store_get s k = some v) : store_set s k v = s := by
  induction s with
  | nil => simp [store_get] at h
  | cons kv rest ih =>
    obtain ⟨k0, v0⟩ := kv
    by_cases h0 : k0 = k
    · subst h0
      simp [store_get] at h
      simp [store_set, h]
    · simp [store_get, h0] at h
      simp [store_set, h0, ih h]

/-! ### Load and append lemmas -/

theorem load_set_record (s : Store) (k : String) (d : OnbData) :
    _load_onb (store_set s k (FileContent.record d)) k = some d := by
  simp [_load_onb, store_get_set_self]

theorem load_some_get {s : Store} {k : String} {d : OnbData}
    (h : _load_onb s k = some d) : store_get s k = some (FileContent.record d) := by
  unfold _load_onb at h
  cases hg : store_get s k with
  | none => rw [hg] at h; simp at h
  | some fc =>
    cases fc with
    | corrupt => rw [hg] at h; simp at h
    | record d0 => rw [hg] at h; simp at h; rw [h]

theorem load_of_get_corrupt {s : Store} {k : String}
    (h : store_get s k = some FileContent.corrupt) : _load_onb s k = none := by
  simp [_load_onb, h]

theorem append_log_present {w : World} {k : String} {d : OnbData} (e : Env) (m : String)
    (h : _load_onb w.store k = some d) :
    _append_log e w k m =
      { w with
          store := store_set w.store k (FileContent.record (pushLog d (e.tsOf w.tick) m)),
          tick := w.tick + 1 } := by
  simp only [_append_log, h, _save_onb]

theorem append_log_absent {w : World} {k : String} (e : Env) (m : String)
    (h : _load_onb w.store k = none) : _append_log e w k m = w := by
  simp only [_append_log, h]

/-! ### A normal form for worlds whose only store change is one record -/

theorem load_mid (w0 : World) (k : String) (d : OnbData) (se ce n) :
    _load_onb (midWorld w0 k d se ce n).store k = some d := by
  simp [midWorld, load_set_record]

theorem mid_zero {w0 : World} {k : String} {d : OnbData}
    (h : _load_onb w0.store k = some d) : midWorld w0 k d [] [] 0 = w0 := by
  simp [midWorld, store_set_of_get _ (load_some_get h)]

theorem append_mid (e : Env) (w0 : World) (k : String) (d : OnbData) (se ce n) (m : String) :
    _append_log e (midWorld w0 k d se ce n) k m =
      midWorld w0 k (pushLog d (e.tsOf (w0.tick + n)) m) se ce (n + 1) := by
  rw [append_log_present e m (load_mid w0 k d se ce n)]
  simp [midWorld, store_set_set, Nat.add_assoc]

theorem calls_mid (w0 : World) (k : String) (d : OnbData) (se ce n cs) :
    { midWorld w0 k d se ce n with
        calls := (midWorld w0 k d se ce n).calls ++ cs } =
      midWorld w0 k d se (ce ++ cs) n := by
  simp [midWorld]

theorem sink_mid (w0 : World) (k : String) (d : OnbData) (se ce n t) :
    { midWorld w0 k d se ce n with
        sink := (midWorld w0 k d se ce n).sink ++ t } =
      midWorld w0 k d (se ++ t) ce n := by
  simp [midWorld]

theorem delete_mid (w0 : World) (k : String) (d : OnbData) (se ce n) :
    _delete_onb (midWorld w0 k d se ce n) k =
      { store := store_del w0.store k,
        sink := w0.sink ++ se,
        calls := w0.calls ++ ce,
        tick := w0.tick + n } := by
  simp [midWorld, _delete_onb, store_del_set]

theorem set_need_code_mid (w0 : World) (k : String) (d : OnbData) (se ce n) (fl : String) :
    set_need_code (midWorld w0 k d se ce n) k fl =
      midWorld w0 k { d with status := "NEED_CODE", flow := some fl } se ce n := by
  simp [set_need_code, midWorld, load_set_record, _save_onb, store_set_set]

theorem pushLog_ext (d : OnbData) (L : List String) (ts m : String) :
    pushLog { d with logs := d.logs ++ L } ts m =
      { d with logs := d.logs ++ (L ++ [fmt_log ts m]) } := by
  simp [pushLog]

theorem handler_logs_mid (e : Env) (k : String) (w0 : World) (se ce) :
    ∀ (hc : List String) (d : OnbData) (n : Nat), ∃ L,
      handler_logs e k (midWorld w0 k d se ce n) hc =
        midWorld w0 k { d with logs := d.logs ++ L } se ce (n + hc.length) := by
  intro hc
  induction hc with
  | nil =>
    intro d n
    refine ⟨[], ?_⟩
    simp [handler_logs]
  | cons c rest ih =>
    intro d n
    rw [handler_logs, append_mid]
    obtain ⟨L, hL⟩ := ih (pushLog d (e.tsOf (w0.tick + n))
      ("Instagram solicitou código via método: " ++ c)) (n + 1)
    refine ⟨fmt_log (e.tsOf (w0.tick + n)) ("Instagram solicitou código via método: " ++ c) :: L, ?_⟩
    rw [hL]
    have hn : n + 1 + rest.length = n + (rest.length + 1) := by omega
    rw [hn]
    simp [pushLog]

/-! ### Start-operation computation lemmas -/

theorem save_mid (w0 : World) (k : String) (d : OnbData) :
    _save_onb w0 k d = midWorld w0 k d [] [] 0 := by
  simp [_save_onb, midWorld]

theorem append_log_mid_intro {w0 : World} {k : String} {d : OnbData} (e : Env) (m : String)
    (h : _load_onb w0.store k = some d) :
    _append_log e w0 k m = midWorld w0 k (pushLog d (e.tsOf w0.tick) m) [] [] 1 := by
  rw [append_log_present e m h]
  simp [midWorld]

theorem start_prelude_spec (e : Env) (w0 : World) (u p : String) (px : Option String) :
    ∃ L n, start_prelude e w0 u p px =
      (e.newId,
       midWorld w0 e.newId { initRecord e u p px with logs := L } [] [PCall.loginCall] n) := by
  cases hpx : pyTruthy px with
  | false =>
    refine ⟨[fmt_log (e.tsOf w0.tick) ("Iniciando login para @" ++ u),
             fmt_log (e.tsOf (w0.tick + 1)) "Tentando login direto…"], 2, ?_⟩
    simp [start_prelude, _new_onb, save_mid, hpx, append_mid, calls_mid, pushLog, initRecord]
  | true =>
    cases hse : e.setProxyError with
    | none =>
      refine ⟨[fmt_log (e.tsOf w0.tick) ("Iniciando login para @" ++ u),
               fmt_log (e.tsOf (w0.tick + 1)) ("Proxy informado: " ++ px.getD ""),
               fmt_log (e.tsOf (w0.tick + 2)) "Proxy configurado com sucesso",
               fmt_log (e.tsOf (w0.tick + 3)) "Tentando login direto…"], 4, ?_⟩
      simp [start_prelude, _new_onb, save_mid, hpx, hse, append_mid, calls_mid, pushLog, initRecord]
    | some err =>
      refine ⟨[fmt_log (e.tsOf w0.tick) ("Iniciando login para @" ++ u),
               fmt_log (e.tsOf (w0.tick + 1)) ("Proxy informado: " ++ px.getD ""),
               fmt_log (e.tsOf (w0.tick + 2)) ("[WARN] Proxy inválido: " ++ err),
               fmt_log (e.tsOf (w0.tick + 3)) "Tentando login direto…"], 4, ?_⟩
      simp [start_prelude, _new_onb, save_mid, hpx, hse, append_mid, calls_mid, pushLog, initRecord]

theorem start_twofactor_spec (e : Env) (w0 : World) (u p : String) (px : Option String)
    (msg : String) :
    ∃ L n,
      ui_start_add_account e (StartLogin.raisesTwoFactor msg) w0 u p px =
        (Outcome.NEEDS_TWO_FACTOR e.newId,
         midWorld w0 e.newId
           { initRecord e u p px with
               status := "NEED_CODE", flow := some "TWO_FACTOR", logs := L }
           [] [PCall.loginCall] n) := by
  obtain ⟨L, n, hpre⟩ := start_prelude_spec e w0 u p px
  refine ⟨L ++ [fmt_log (e.tsOf (w0.tick + n))
    "⚠️ 2FA requerido (use o código do app autenticador/SMS)"], n + 1, ?_⟩
  simp [ui_start_add_account, hpre, set_need_code_mid, append_mid, pushLog]

theorem start_challenge_direct_spec (e : Env) (w0 : World) (u p : String) (px : Option String)
    (msg : String) :
    ∃ L n,
      ui_start_add_account e (StartLogin.raisesChallenge msg) w0 u p px =
        (Outcome.NEEDS_CHALLENGE e.newId,
         midWorld w0 e.newId
           { initRecord e u p px with
               status := "NEED_CODE", flow := some "CHALLENGE",
               logs := L ++
                 [fmt_log (e.tsOf (w0.tick + n)) "⚠️ Challenge requerido — Instagram enviará um código (email/SMS)",
                  fmt_log (e.tsOf (w0.tick + n + 1)) "Dica: verifique também a pasta de SPAM / promoções do e-mail."] }
           [] [PCall.loginCall] (n + 2)) := by
  obtain ⟨L, n, hpre⟩ := start_prelude_spec e w0 u p px
  refine ⟨L, n, ?_⟩
  simp only [ui_start_add_account, hpre, challenge_need_code, set_need_code_mid, append_mid, pushLog]
  simp [Nat.add_assoc]

theorem start_challenge_handler_spec (e : Env) (w0 : World) (u p : String) (px : Option String)
    (choice : String) :
    ∃ L n,
      ui_start_add_account e (StartLogin.handlerChallenge choice) w0 u p px =
        (Outcome.NEEDS_CHALLENGE e.newId,
         midWorld w0 e.newId
           { initRecord e u p px with
               status := "NEED_CODE", flow := some "CHALLENGE",
               logs := L ++
                 [fmt_log (e.tsOf (w0.tick + n)) "⚠️ Challenge requerido — Instagram enviará um código (email/SMS)",
                  fmt_log (e.tsOf (w0.tick + n + 1)) "Dica: verifique também a pasta de SPAM / promoções do e-mail."] }
           [] [PCall.loginCall] (n + 2)) := by
  obtain ⟨L, n, hpre⟩ := start_prelude_spec e w0 u p px
  refine ⟨L ++ [fmt_log (e.tsOf (w0.tick + n))
    ("Challenge detectado (método: " ++ choice ++ "). Aguardando código na interface…")], n + 1, ?_⟩
  simp only [ui_start_add_account, hpre, challenge_need_code, set_need_code_mid, append_mid, pushLog]
  simp [Nat.add_assoc]

theorem start_success_spec (e : Env) (w0 : World) (u p : String) (px : Option String) :
    ∃ n, ui_start_add_account e (StartLogin.ok true) w0 u p px =
      (Outcome.SUCCESS,
       { store := store_del w0.store e.newId,
         sink := w0.sink ++ [(u, p, px)],
         calls := w0.calls ++ [PCall.loginCall],
         tick := w0.tick + n }) := by
  obtain ⟨L, n, hpre⟩ := start_prelude_spec e w0 u p px
  refine ⟨n + 2, ?_⟩
  simp only [ui_start_add_account, hpre, append_mid, sink_mid, delete_mid, pushLog]
  simp [Nat.add_assoc]

/-! ### Resume-operation computation lemmas -/

theorem confirm_fail_mid (e : Env) (w0 : World) (k : String) (d : OnbData) (se ce n)
    (msg : String) :
    confirm_fail e (midWorld w0 k d se ce n) k msg =
      (Outcome.FAILURE (some k) msg,
       midWorld w0 k
         (pushLog d (e.tsOf (w0.tick + n)) ("[ERRO] Falha na confirmação do código: " ++ msg))
         se ce (n + 1)) := by
  simp [confirm_fail, append_mid]

theorem register_and_finish_mid (e : Env) (w0 : World) (k : String) (d : OnbData) (se ce n)
    (username password : String) (proxy : Option String) :
    register_and_finish e (midWorld w0 k d se ce n) k username password proxy =
      (Outcome.SUCCESS,
       { store := store_del w0.store k,
         sink := w0.sink ++ (se ++ [(username, password, proxy)]),
         calls := w0.calls ++ ce,
         tick := w0.tick + (n + 1) }) := by
  simp [register_and_finish, sink_mid, append_mid, delete_mid]

theorem resume_prelude_spec {w0 : World} {k : String} {d : OnbData} (e : Env)
    (h : _load_onb w0.store k = some d) :
    ∃ L n, resume_prelude e w0 k d =
      midWorld w0 k { d with logs := d.logs ++ L } [] [] n := by
  simp only [resume_prelude]
  rw [append_log_mid_intro e _ h]
  cases hpx : pyTruthy d.proxy with
  | false =>
    refine ⟨[fmt_log (e.tsOf w0.tick)
      ("Recebido código para @" ++ d.username ++ ". Tentando concluir " ++ optStr d.flow ++ "…")],
      1, ?_⟩
    simp [hpx, pushLog]
  | true =>
    cases hse : e.setProxyError with
    | none =>
      refine ⟨[fmt_log (e.tsOf w0.tick)
        ("Recebido código para @" ++ d.username ++ ". Tentando concluir " ++ optStr d.flow ++ "…"),
        fmt_log (e.tsOf (w0.tick + 1)) "Proxy configurado novamente para concluir verificação"],
        2, ?_⟩
      simp [hpx, hse, append_mid, pushLog]
    | some err =>
      refine ⟨[fmt_log (e.tsOf w0.tick)
        ("Recebido código para @" ++ d.username ++ ". Tentando concluir " ++ optStr d.flow ++ "…"),
        fmt_log (e.tsOf (w0.tick + 1)) ("[WARN] Proxy inválido ao confirmar: " ++ err)],
        2, ?_⟩
      simp [hpx, hse, append_mid, pushLog]

theorem ch_login_step_spec (e : Env) (p : ResumeProv) (w0 : World) (k : String)
    (d : OnbData) (se ce n) :
    ∃ L n2, ch_login_step e p (midWorld w0 k d se ce n) k =
      (chLoginOk p.chLogin, midWorld w0 k { d with logs := d.logs ++ L } se ce n2) := by
  cases hcl : p.chLogin with
  | ok hc b =>
    obtain ⟨L, hL⟩ := handler_logs_mid e k w0 se ce hc d n
    exact ⟨L, n + hc.length, by simp [ch_login_step, hcl, chLoginOk, hL]⟩
  | raisesChallenge hc =>
    obtain ⟨L, hL⟩ := handler_logs_mid e k w0 se ce hc d n
    exact ⟨L, n + hc.length, by simp [ch_login_step, hcl, chLoginOk, hL]⟩
  | raisesOther hc msg =>
    obtain ⟨L, hL⟩ := handler_logs_mid e k w0 se ce hc d n
    refine ⟨L ++ [fmt_log (e.tsOf (w0.tick + (n + hc.length)))
      ("[WARN] login com handler falhou: " ++ msg)], n + hc.length + 1, ?_⟩
    simp [ch_login_step, hcl, chLoginOk, hL, append_mid, pushLog, Nat.add_assoc]

theorem ch_fallback_spec (e : Env) (p : ResumeProv) (w0 : World) (k : String)
    (d : OnbData) (se ce n) (code : String) :
    ∃ L n2, ch_fallback e p (midWorld w0 k d se ce n) k code =
      (chResolveOk p.chResolve,
       midWorld w0 k { d with logs := d.logs ++ L } se
         (ce ++ fallbackCalls p.chResolve code) n2) := by
  cases hcr : p.chResolve with
  | ok b =>
    refine ⟨[], n, ?_⟩
    simp [ch_fallback, hcr, chResolveOk, calls_mid, fallbackCalls, namedSuffix]
  | typeErrorThen second =>
    cases second with
    | ok b =>
      refine ⟨[], n, ?_⟩
      simp [ch_fallback, hcr, chResolveOk, calls_mid, fallbackCalls, namedSuffix]
    | raises msg =>
      refine ⟨[fmt_log (e.tsOf (w0.tick + n)) ("[WARN] challenge_resolve falhou: " ++ msg)],
        n + 1, ?_⟩
      simp [ch_fallback, hcr, chResolveOk, calls_mid, fallbackCalls, namedSuffix, append_mid,
        pushLog]
  | raises msg =>
    refine ⟨[fmt_log (e.tsOf (w0.tick + n)) ("[WARN] challenge_resolve falhou: " ++ msg)],
      n + 1, ?_⟩
    simp [ch_fallback, hcr, chResolveOk, calls_mid, fallbackCalls, namedSuffix, append_mid,
      pushLog]

theorem tf_branch_fail (e : Env) (p : ResumeProv) (w0 : World) (k : String) (d : OnbData)
    (se ce n) (username password : String) (proxy : Option String) (code : String)
    (hfail : (!(tfLoginRaises p.tfLogin) && tfResolveOk p.tfResolve) = false) :
    ∃ m L n2, L ≠ [] ∧
      tf_branch e p (midWorld w0 k d se ce n) k username password proxy code =
        (Outcome.FAILURE (some k) m,
         midWorld w0 k { d with logs := d.logs ++ L } se
           (ce ++ (if tfLoginRaises p.tfLogin then [PCall.loginCall]
                   else [PCall.loginCall, PCall.twoFactorResolve code])) n2) := by
  cases htl : p.tfLogin with
  | raisesOther msg =>
    refine ⟨msg,
      [fmt_log (e.tsOf (w0.tick + n)) ("[ERRO] Falha na confirmação do código: " ++ msg)],
      n + 1, by simp, ?_⟩
    simp [tf_branch, htl, calls_mid, confirm_fail_mid, pushLog, tfLoginRaises]
  | ok b =>
    have hres : tfResolveOk p.tfResolve = false := by
      rw [htl] at hfail; simpa [tfLoginRaises] using hfail
    cases htr : p.tfResolve with
    | ok b2 =>
      have hb2 : b2 = false := by rw [htr] at hres; simpa [tfResolveOk] using hres
      subst hb2
      refine ⟨"2FA não aceito",
        [fmt_log (e.tsOf (w0.tick + n))
          ("[ERRO] Falha na confirmação do código: " ++ "2FA não aceito")],
        n + 1, by simp, ?_⟩
      simp [tf_branch, htl, htr, calls_mid, confirm_fail_mid, pushLog, tfLoginRaises]
    | raises msg =>
      refine ⟨"2FA não aceito",
        [fmt_log (e.tsOf (w0.tick + n)) ("[WARN] two_factor_login falhou: " ++ msg),
         fmt_log (e.tsOf (w0.tick + n + 1))
           ("[ERRO] Falha na confirmação do código: " ++ "2FA não aceito")],
        n + 2, by simp, ?_⟩
      simp [tf_branch, htl, htr, calls_mid, append_mid, confirm_fail_mid, pushLog,
        tfLoginRaises, Nat.add_assoc]
  | raisesTwoFactor =>
    have hres : tfResolveOk p.tfResolve = false := by
      rw [htl] at hfail; simpa [tfLoginRaises] using hfail
    cases htr : p.tfResolve with
    | ok b2 =>
      have hb2 : b2 = false := by rw [htr] at hres; simpa [tfResolveOk] using hres
      subst hb2
      refine ⟨"2FA não aceito",
        [fmt_log (e.tsOf (w0.tick + n))
          ("[ERRO] Falha na confirmação do código: " ++ "2FA não aceito")],
        n + 1, by simp, ?_⟩
      simp [tf_branch, htl, htr, calls_mid, confirm_fail_mid, pushLog, tfLoginRaises]
    | raises msg =>
      refine ⟨"2FA não aceito",
        [fmt_log (e.tsOf (w0.tick + n)) ("[WARN] two_factor_login falhou: " ++ msg),
         fmt_log (e.tsOf (w0.tick + n + 1))
           ("[ERRO] Falha na confirmação do código: " ++ "2FA não aceito")],
        n + 2, by simp, ?_⟩
      simp [tf_branch, htl, htr, calls_mid, append_mid, confirm_fail_mid, pushLog,
        tfLoginRaises, Nat.add_assoc]

theorem tf_branch_success (e : Env) (p : ResumeProv) (w0 : World) (k : String) (d : OnbData)
    (se ce n) (username password : String) (proxy : Option String) (code : String)
    (hacc : (!(tfLoginRaises p.tfLogin) && tfResolveOk p.tfResolve) = true) :
    ∃ n2,
      tf_branch e p (midWorld w0 k d se ce n) k username password proxy code =
        (Outcome.SUCCESS,
         { store := store_del w0.store k,
           sink := w0.sink ++ (se ++ [(username, password, proxy)]),
           calls := w0.calls ++ (ce ++ [PCall.loginCall, PCall.twoFactorResolve code]),
           tick := w0.tick + n2 }) := by
  have htr : tfResolveOk p.tfResolve = true := by
    cases hy : tfResolveOk p.tfResolve
    · rw [hy] at hacc; simp at hacc
    · rfl
  have hb2 : p.tfResolve = TFResolve.ok true := by
    cases hz : p.tfResolve with
    | ok b => rw [hz] at htr; simp [tfResolveOk] at htr; rw [htr]
    | raises msg => rw [hz] at htr; simp [tfResolveOk] at htr
  cases htl : p.tfLogin with
  | raisesOther msg => rw [htl] at hacc; simp [tfLoginRaises] at hacc
  | ok b =>
    refine ⟨n + 2, ?_⟩
    simp [tf_branch, htl, hb2, calls_mid, append_mid, register_and_finish_mid, pushLog,
      Nat.add_assoc]
  | raisesTwoFactor =>
    refine ⟨n + 2, ?_⟩
    simp [tf_branch, htl, hb2, calls_mid, append_mid, register_and_finish_mid, pushLog,
      Nat.add_assoc]

theorem ch_branch_fail (e : Env) (p : ResumeProv) (w0 : World) (k : String) (d : OnbData)
    (se ce n) (username password : String) (proxy : Option String) (code : String)
    (hl : chLoginOk p.chLogin = false) (hr : chResolveOk p.chResolve = false) :
    ∃ L n2, L ≠ [] ∧
      ch_branch e p (midWorld w0 k d se ce n) k username password proxy code =
        (Outcome.FAILURE (some k) "Challenge não aceito",
         midWorld w0 k { d with logs := d.logs ++ L } se
           (ce ++ PCall.loginCall :: resolveCallsCh p code) n2) := by
  obtain ⟨L1, n1, h1⟩ := ch_login_step_spec e p w0 k d se (ce ++ [PCall.loginCall]) n
  obtain ⟨L2, n2, h2⟩ := ch_fallback_spec e p w0 k { d with logs := d.logs ++ L1 } se
    (ce ++ [PCall.loginCall]) n1 code
  refine ⟨L1 ++ L2 ++ [fmt_log (e.tsOf (w0.tick + n2))
    ("[ERRO] Falha na confirmação do código: " ++ "Challenge não aceito")], n2 + 1, ?_, ?_⟩
  · intro hcon
    have := List.append_eq_nil.mp hcon
    simp at this
  · simp only [ch_branch, calls_mid, h1, hl, Bool.false_eq_true, if_false, h2, hr,
      confirm_fail_mid]
    simp [pushLog, resolveCallsCh, hl, fallbackCalls]

theorem ch_branch_success (e : Env) (p : ResumeProv) (w0 : World) (k : String) (d : OnbData)
    (se ce n) (username password : String) (proxy : Option String) (code : String)
    (hacc : (chLoginOk p.chLogin || chResolveOk p.chResolve) = true) :
    ∃ n2,
      ch_branch e p (midWorld w0 k d se ce n) k username password proxy code =
        (Outcome.SUCCESS,
         { store := store_del w0.store k,
           sink := w0.sink ++ (se ++ [(username, password, proxy)]),
           calls := w0.calls ++ (ce ++ PCall.loginCall :: resolveCallsCh p code),
           tick := w0.tick + n2 }) := by
  obtain ⟨L1, n1, h1⟩ := ch_login_step_spec e p w0 k d se (ce ++ [PCall.loginCall]) n
  cases hcl : chLoginOk p.chLogin with
  | true =>
    refine ⟨n1 + 2, ?_⟩
    simp only [ch_branch, calls_mid, h1, hcl, if_true, append_mid, register_and_finish_mid]
    simp [pushLog, resolveCallsCh, hcl, Nat.add_assoc]
  | false =>
    have hcr : chResolveOk p.chResolve = true := by
      rw [hcl] at hacc; simpa using hacc
    obtain ⟨L2, n2, h2⟩ := ch_fallback_spec e p w0 k { d with logs := d.logs ++ L1 } se
      (ce ++ [PCall.loginCall]) n1 code
    refine ⟨n2 + 2, ?_⟩
    simp only [ch_branch, calls_mid, h1, hcl, Bool.false_eq_true, if_false, h2, hcr, if_true,
      append_mid, register_and_finish_mid]
    simp [pushLog, resolveCallsCh, hcl, fallbackCalls, Nat.add_assoc]

theorem resume_failure {w0 : World} {k : String} {d : OnbData} (e : Env) (p : ResumeProv)
    (code : String) (h : _load_onb w0.store k = some d)
    (hfail : resumeAccepts d.flow p = false) :
    ∃ m L n, L ≠ [] ∧
      ui_confirm_code e p w0 k code =
        (Outcome.FAILURE (some k) m,
         midWorld w0 k { d with logs := d.logs ++ L } [] (resumeCalls d.flow p code) n) := by
  obtain ⟨L0, n0, hpre⟩ := resume_prelude_spec e h
  by_cases hf : d.flow = some "TWO_FACTOR"
  · have hfail2 : (!(tfLoginRaises p.tfLogin) && tfResolveOk p.tfResolve) = false := by
      rw [resumeAccepts, if_pos hf] at hfail; exact hfail
    obtain ⟨m, L1, n1, hL1, hbr⟩ := tf_branch_fail e p w0 k { d with logs := d.logs ++ L0 }
      [] [] n0 d.username d.password d.proxy code hfail2
    refine ⟨m, L0 ++ L1, n1, ?_, ?_⟩
    · intro hcon
      exact hL1 (List.append_eq_nil.mp hcon).2
    · simp only [ui_confirm_code, h]
      rw [hpre, if_pos hf, hbr]
      simp [resumeCalls, hf, List.append_assoc]
  · have hl : chLoginOk p.chLogin = false := by
      cases hx : chLoginOk p.chLogin
      · rfl
      · rw [resumeAccepts, if_neg hf, hx] at hfail; simp at hfail
    have hr : chResolveOk p.chResolve = false := by
      cases hx : chResolveOk p.chResolve
      · rfl
      · rw [resumeAccepts, if_neg hf, hx] at hfail; simp at hfail
    obtain ⟨L1, n1, hL1, hbr⟩ := ch_branch_fail e p w0 k { d with logs := d.logs ++ L0 }
      [] [] n0 d.username d.password d.proxy code hl hr
    refine ⟨"Challenge não aceito", L0 ++ L1, n1, ?_, ?_⟩
    · intro hcon
      exact hL1 (List.append_eq_nil.mp hcon).2
    · simp only [ui_confirm_code, h]
      rw [hpre, if_neg hf, hbr]
      simp [resumeCalls, hf, List.append_assoc]

theorem resume_success {w0 : World} {k : String} {d : OnbData} (e : Env) (p : ResumeProv)
    (code : String) (h : _load_onb w0.store k = some d)
    (hacc : resumeAccepts d.flow p = true) :
    ∃ n, ui_confirm_code e p w0 k code =
      (Outcome.SUCCESS,
       { store := store_del w0.store k,
         sink := w0.sink ++ [(d.username, d.password, d.proxy)],
         calls := w0.calls ++ resumeCalls d.flow p code,
         tick := w0.tick + n }) := by
  obtain ⟨L0, n0, hpre⟩ := resume_prelude_spec e h
  by_cases hf : d.flow = some "TWO_FACTOR"
  · have hacc2 : (!(tfLoginRaises p.tfLogin) && tfResolveOk p.tfResolve) = true := by
      rw [resumeAccepts, if_pos hf] at hacc; exact hacc
    have hnr : tfLoginRaises p.tfLogin = false := by
      cases hx : tfLoginRaises p.tfLogin
      · rfl
      · rw [hx] at hacc2; simp at hacc2
    obtain ⟨n1, hbr⟩ := tf_branch_success e p w0 k { d with logs := d.logs ++ L0 }
      [] [] n0 d.username d.password d.proxy code hacc2
    refine ⟨n1, ?_⟩
    simp only [ui_confirm_code, h]
    rw [hpre, if_pos hf, hbr]
    simp [resumeCalls, hf, hnr]
  · have hacc2 : (chLoginOk p.chLogin || chResolveOk p.chResolve) = true := by
      rw [resumeAccepts, if_neg hf] at hacc; exact hacc
    obtain ⟨n1, hbr⟩ := ch_branch_success e p w0 k { d with logs := d.logs ++ L0 }
      [] [] n0 d.username d.password d.proxy code hacc2
    refine ⟨n1, ?_⟩
    simp only [ui_confirm_code, h]
    rw [hpre, if_neg hf, hbr]
    simp [resumeCalls, hf]

/-! ### Further helper lemmas -/

theorem store_get_del_ne (s : Store) {k k2 : String} (h : k2 ≠ k) :
    store_get (store_del s k) k2 = store_get s k2 := by
  induction s with
  | nil => simp [store_del]
  | cons kv rest ih =>
    obtain ⟨k0, v0⟩ := kv
    by_cases h0 : k0 = k
    · subst h0
      simp [store_del, store_get, Ne.symm h, ih]
    · by_cases h2 : k0 = k2 <;> simp [store_del, store_get, h0, h2, h, ih]

theorem start_ambiguous_spec (e : Env) (w0 : World) (u p : String) (px : Option String) :
    ∃ L n,
      ui_start_add_account e (StartLogin.ok false) w0 u p px =
        (Outcome.FAILURE none "Falha no login (sem desafio)",
         midWorld w0 e.newId { initRecord e u p px with logs := L } [] [PCall.loginCall] n) := by
  obtain ⟨L, n, hpre⟩ := start_prelude_spec e w0 u p px
  refine ⟨L ++ [fmt_log (e.tsOf (w0.tick + n))
    "[ERRO] Falha ao iniciar o login: Falha no login (sem desafio)"], n + 1, ?_⟩
  simp [ui_start_add_account, hpre, append_mid, pushLog]

theorem start_other_error_spec (e : Env) (w0 : World) (u p : String) (px : Option String)
    (msg : String) :
    ∃ L n,
      ui_start_add_account e (StartLogin.raisesOther msg) w0 u p px =
        (Outcome.FAILURE none msg,
         midWorld w0 e.newId { initRecord e u p px with logs := L } [] [PCall.loginCall] n) := by
  obtain ⟨L, n, hpre⟩ := start_prelude_spec e w0 u p px
  refine ⟨L ++ [fmt_log (e.tsOf (w0.tick + n))
    ("[ERRO] Falha ao iniciar o login: " ++ msg)], n + 1, ?_⟩
  simp [ui_start_add_account, hpre, append_mid, pushLog]

theorem resume_ch_failure {w0 : World} {k : String} {d : OnbData} (e : Env) (p : ResumeProv)
    (code : String) (h : _load_onb w0.store k = some d)
    (hf : ¬d.flow = some "TWO_FACTOR")
    (hl : chLoginOk p.chLogin = false) (hr : chResolveOk p.chResolve = false) :
    ∃ L n, L ≠ [] ∧
      ui_confirm_code e p w0 k code =
        (Outcome.FAILURE (some k) "Challenge não aceito",
         midWorld w0 k { d with logs := d.logs ++ L } []
           (PCall.loginCall :: resolveCallsCh p code) n) := by
  obtain ⟨L0, n0, hpre⟩ := resume_prelude_spec e h
  obtain ⟨L1, n1, hL1, hbr⟩ := ch_branch_fail e p w0 k { d with logs := d.logs ++ L0 }
    [] [] n0 d.username d.password d.proxy code hl hr
  refine ⟨L0 ++ L1, n1, ?_, ?_⟩
  · intro hcon
    exact hL1 (List.append_eq_nil.mp hcon).2
  · simp only [ui_confirm_code, h]
    rw [hpre, if_neg hf, hbr]
    simp [List.append_assoc]

/-! ### Invariant preservation -/

theorem storeInv_set {s : Store} {k : String} {v : FileContent} (h : StoreInv s)
    (hv : ∀ d, v = FileContent.record d → flowInv d) : StoreInv (store_set s k v) := by
  intro k2 d2 hget
  by_cases hk : k2 = k
  · subst hk
    rw [store_get_set_self] at hget
    exact hv d2 (Option.some.inj hget)
  · rw [store_get_set_ne s v hk] at hget
    exact h k2 d2 hget

theorem storeInv_del {s : Store} (k : String) (h : StoreInv s) : StoreInv (store_del s k) := by
  intro k2 d2 hget
  by_cases hk : k2 = k
  · subst hk
    rw [store_get_del_self] at hget
    cases hget
  · rw [store_get_del_ne s hk] at hget
    exact h k2 d2 hget

theorem storeInv_mid {w0 : World} {k : String} {d : OnbData} {se ce n}
    (h : StoreInv w0.store) (hd : flowInv d) : StoreInv (midWorld w0 k d se ce n).store := by
  show StoreInv (store_set w0.store k (FileContent.record d))
  refine storeInv_set h ?_
  intro d2 hd2
  cases Option.some.inj (congrArg some hd2) with
  | refl => exact hd

theorem storeInv_append_log {w : World} (e : Env) (k m : String) (h : StoreInv w.store) :
    StoreInv (_append_log e w k m).store := by
  cases hl : _load_onb w.store k with
  | none => rw [append_log_absent e m hl]; exact h
  | some d =>
    rw [append_log_present e m hl]
    show StoreInv (store_set w.store k (FileContent.record (pushLog d (e.tsOf w.tick) m)))
    refine storeInv_set h ?_
    intro d2 hd2
    have hfd : flowInv d := h k d (load_some_get hl)
    have : pushLog d (e.tsOf w.tick) m = d2 := FileContent.record.inj hd2
    rw [← this]
    simpa [flowInv, pushLog] using hfd

theorem storeInv_delete {w : World} (k : String) (h : StoreInv w.store) :
    StoreInv (_delete_onb w k).store := by
  show StoreInv (store_del w.store k)
  exact storeInv_del k h

theorem storeInv_start (e : Env) (prov : StartLogin) (w0 : World) (u p : String)
    (px : Option String) (h : StoreInv w0.store) :
    StoreInv (ui_start_add_account e prov w0 u p px).2.store := by
  cases prov with
  | ok b =>
    cases b with
    | true =>
      obtain ⟨n, hs⟩ := start_success_spec e w0 u p px
      rw [hs]
      exact storeInv_del _ h
    | false =>
      obtain ⟨L, n, hs⟩ := start_ambiguous_spec e w0 u p px
      rw [hs]
      exact storeInv_mid h (by simp [flowInv, initRecord])
  | raisesTwoFactor msg =>
    obtain ⟨L, n, hs⟩ := start_twofactor_spec e w0 u p px msg
    rw [hs]
    exact storeInv_mid h (by simp [flowInv])
  | raisesChallenge msg =>
    obtain ⟨L, n, hs⟩ := start_challenge_direct_spec e w0 u p px msg
    rw [hs]
    exact storeInv_mid h (by simp [flowInv])
  | handlerChallenge choice =>
    obtain ⟨L, n, hs⟩ := start_challenge_handler_spec e w0 u p px choice
    rw [hs]
    exact storeInv_mid h (by simp [flowInv])
  | raisesOther msg =>
    obtain ⟨L, n, hs⟩ := start_other_error_spec e w0 u p px msg
    rw [hs]
    exact storeInv_mid h (by simp [flowInv, initRecord])

theorem storeInv_confirm (e : Env) (p : ResumeProv) (w0 : World) (id code : String)
    (h : StoreInv w0.store) :
    StoreInv (ui_confirm_code e p w0 id code).2.store := by
  cases hl : _load_onb w0.store id with
  | none => simp only [ui_confirm_code, hl]; exact h
  | some d =>
    by_cases hacc : resumeAccepts d.flow p = true
    · obtain ⟨n, hs⟩ := resume_success e p code hl hacc
      rw [hs]
      exact storeInv_del _ h
    · have hacc2 : resumeAccepts d.flow p = false := by
        revert hacc; cases resumeAccepts d.flow p <;> simp
      obtain ⟨m, L, n, hL, hs⟩ := resume_failure e p code hl hacc2
      rw [hs]
      refine storeInv_mid h ?_
      have hfd : flowInv d := h id d (load_some_get hl)
      simpa [flowInv] using hfd

theorem storeInv_cancel (e : Env) (w0 : World) (id : String) (h : StoreInv w0.store) :
    StoreInv (ui_cancel e w0 id).2.store := by
  cases hl : _load_onb w0.store id with
  | none => simp only [ui_cancel, hl]; exact h
  | some d =>
    simp only [ui_cancel, hl]
    exact storeInv_delete _ (storeInv_append_log e _ _ h)

theorem cancel_load_after (e : Env) (w : World) (id : String) :
    _load_onb (ui_cancel e w id).2.store id = none := by
  cases hl : _load_onb w.store id with
  | none => simp only [ui_cancel, hl]
  | some d =>
    simp only [ui_cancel, hl]
    show _load_onb (store_del _ id) id = none
    simp [_load_onb, store_get_del_self]

/-! ### Claim theorems -/

/-- C1: when the provider login raises two-factor-required, the session is
persisted with status NEED_CODE and flow TWO_FACTOR and start returns
NEEDS_TWO_FACTOR carrying the session id; when it raises
challenge-required — directly or synthesized by the pre-login interception
handler — the session is persisted with status NEED_CODE and flow
CHALLENGE, the log gains the challenge event entry plus the
secondary-inbox hint, and start returns NEEDS_CHALLENGE carrying the
session id. -/
theorem C1_need_code_transitions (e : Env) (w : World) (u p : String) (px : Option String)
    (msg msg2 choice : String) :
    ((ui_start_add_account e (StartLogin.raisesTwoFactor msg) w u p px).1 =
        Outcome.NEEDS_TWO_FACTOR e.newId ∧
      ∃ d, _load_onb (ui_start_add_account e (StartLogin.raisesTwoFactor msg) w u p px).2.store
            e.newId = some d ∧ d.status = "NEED_CODE" ∧ d.flow = some "TWO_FACTOR") ∧
    ((ui_start_add_account e (StartLogin.raisesChallenge msg2) w u p px).1 =
        Outcome.NEEDS_CHALLENGE e.newId ∧
      ∃ d, _load_onb (ui_start_add_account e (StartLogin.raisesChallenge msg2) w u p px).2.store
            e.newId = some d ∧ d.status = "NEED_CODE" ∧ d.flow = some "CHALLENGE" ∧
        ∃ L t1 t2, d.logs = L ++
            [fmt_log t1 "⚠️ Challenge requerido — Instagram enviará um código (email/SMS)",
             fmt_log t2 "Dica: verifique também a pasta de SPAM / promoções do e-mail."]) ∧
    ((ui_start_add_account e (StartLogin.handlerChallenge choice) w u p px).1 =
        Outcome.NEEDS_CHALLENGE e.newId ∧
      ∃ d, _load_onb (ui_start_add_account e (StartLogin.handlerChallenge choice) w u p px).2.store
            e.newId = some d ∧ d.status = "NEED_CODE" ∧ d.flow = some "CHALLENGE" ∧
        ∃ L t1 t2, d.logs = L ++
            [fmt_log t1 "⚠️ Challenge requerido — Instagram enviará um código (email/SMS)",
             fmt_log t2 "Dica: verifique também a pasta de SPAM / promoções do e-mail."]) := by
  refine ⟨?_, ?_, ?_⟩
  · obtain ⟨L, n, hs⟩ := start_twofactor_spec e w u p px msg
    rw [hs]
    exact ⟨rfl, _, load_mid w e.newId _ [] [PCall.loginCall] n, rfl, rfl⟩
  · obtain ⟨L, n, hs⟩ := start_challenge_direct_spec e w u p px msg2
    rw [hs]
    exact ⟨rfl, _, load_mid w e.newId _ [] [PCall.loginCall] (n + 2), rfl, rfl,
      L, e.tsOf (w.tick + n), e.tsOf (w.tick + n + 1), rfl⟩
  · obtain ⟨L, n, hs⟩ := start_challenge_handler_spec e w u p px choice
    rw [hs]
    exact ⟨rfl, _, load_mid w e.newId _ [] [PCall.loginCall] (n + 2), rfl, rfl,
      L, e.tsOf (w.tick + n), e.tsOf (w.tick + n + 1), rfl⟩

/-- C2: when the provider login reports success, start returns SUCCESS, the
registration sink receives exactly one call with the original
(username, credential, proxy) triple, and no session record for the attempt
remains in the store. -/
theorem C2_success_registers_once (e : Env) (w : World) (u p : String) (px : Option String) :
    (ui_start_add_account e (StartLogin.ok true) w u p px).1 = Outcome.SUCCESS ∧
    (ui_start_add_account e (StartLogin.ok true) w u p px).2.sink = w.sink ++ [(u, p, px)] ∧
    store_get (ui_start_add_account e (StartLogin.ok true) w u p px).2.store e.newId = none := by
  obtain ⟨n, hs⟩ := start_success_spec e w u p px
  rw [hs]
  exact ⟨rfl, rfl, store_get_del_self w.store e.newId⟩

/-- C4: a resume whose session id has no loadable record returns NOT_FOUND
(a distinct outcome constructor) with the world unchanged — no record
created, modified or deleted, no sink or trace activity, and (the embedding
is total) no exception. -/
theorem C4_not_found (e : Env) (p : ResumeProv) (w : World) (id code : String)
    (h : _load_onb w.store id = none) :
    ui_confirm_code e p w id code = (Outcome.NOT_FOUND, w) := by
  simp [ui_confirm_code, h]

theorem C4_not_found_witness :
    _load_onb wEmpty.store "nonexistent-id" = none ∧
    ui_confirm_code envA pRej wEmpty "nonexistent-id" "000000" = (Outcome.NOT_FOUND, wEmpty) :=
  ⟨rfl, C4_not_found envA pRej wEmpty "nonexistent-id" "000000" rfl⟩

/-- C6: every record ever written satisfies: flow is non-null iff status is
NEED_CODE — session creation writes an INIT record with null flow (which
satisfies the invariant), and each of the three public operations preserves
the invariant over the whole store. -/
theorem C6_flow_status_invariant (e : Env) (w : World) (h : StoreInv w.store) :
    (∀ u p px, flowInv (initRecord e u p px)) ∧
    (∀ prov u p px, StoreInv (ui_start_add_account e prov w u p px).2.store) ∧
    (∀ p id code, StoreInv (ui_confirm_code e p w id code).2.store) ∧
    (∀ id, StoreInv (ui_cancel e w id).2.store) :=
  ⟨fun u p px => by simp [flowInv, initRecord],
   fun prov u p px => storeInv_start e prov w u p px h,
   fun p id code => storeInv_confirm e p w id code h,
   fun id => storeInv_cancel e w id h⟩

theorem C6_flow_status_invariant_witness :
    StoreInv wEmpty.store ∧ StoreInv (ui_cancel envA wEmpty "sid").2.store := by
  have h : StoreInv wEmpty.store := by
    intro k d hk
    simp [wEmpty, store_get] at hk
  exact ⟨h, (C6_flow_status_invariant envA wEmpty h).2.2.2 "sid"⟩

/-- C7: cancel never raises (the embedding is total) and is idempotent: the
first call returns CANCELED and deletes the session when one was loadable,
and a second cancel on the resulting world is a no-op that still returns
CANCELED. -/
theorem C7_cancel_idempotent (e1 e2 : Env) (w : World) (id : String) :
    (ui_cancel e1 w id).1 = Outcome.CANCELED ∧
    (∀ d, _load_onb w.store id = some d →
      store_get (ui_cancel e1 w id).2.store id = none) ∧
    ui_cancel e2 (ui_cancel e1 w id).2 id = (Outcome.CANCELED, (ui_cancel e1 w id).2) := by
  refine ⟨?_, ?_, ?_⟩
  · cases hl : _load_onb w.store id <;> simp [ui_cancel, hl]
  · intro d hd
    simp only [ui_cancel, hd]
    show store_get (store_del _ id) id = none
    exact store_get_del_self _ id
  · have h2 := cancel_load_after e1 w id
    generalize hW : (ui_cancel e1 w id).2 = W at h2 ⊢
    simp [ui_cancel, h2]

theorem C7_cancel_idempotent_witness :
    _load_onb wTF.store "sid" = some dTF ∧
    store_get (ui_cancel envA wTF "sid").2.store "sid" = none ∧
    ui_cancel envA (ui_cancel envA wTF "sid").2 "sid" =
      (Outcome.CANCELED, (ui_cancel envA wTF "sid").2) :=
  ⟨rfl, (C7_cancel_idempotent envA envA wTF "sid").2.1 dTF rfl,
   (C7_cancel_idempotent envA envA wTF "sid").2.2⟩

/-- C8: the log-append operation loads the session, appends exactly one
entry of the form "[ts] message" at the end (preserving all earlier
entries in order) and re-persists only that record; with no loadable record
it is a silent no-op. -/
theorem C8_append_log_contract (e : Env) (w : World) (id msg : String) :
    (_load_onb w.store id = none → _append_log e w id msg = w) ∧
    (∀ d, _load_onb w.store id = some d →
      _append_log e w id msg =
        { w with
            store := store_set w.store id (FileContent.record
              { d with logs := d.logs ++ ["[" ++ e.tsOf w.tick ++ "] " ++ msg] }),
            tick := w.tick + 1 }) := by
  constructor
  · intro h
    exact append_log_absent e msg h
  · intro d h
    rw [append_log_present e msg h]
    simp [pushLog, fmt_log]

theorem C8_append_log_contract_witness :
    _append_log envA wEmpty "sid" "m" = wEmpty ∧
    _append_log envA wCh "sid" "m" =
      { wCh with
          store := store_set wCh.store "sid" (FileContent.record
            { dCh with logs := dCh.logs ++ ["[" ++ envA.tsOf wCh.tick ++ "] " ++ "m"] }),
          tick := wCh.tick + 1 } :=
  ⟨(C8_append_log_contract envA wEmpty "sid" "m").1 rfl,
   (C8_append_log_contract envA wCh "sid" "m").2 dCh rfl⟩

/-- C10: a stored but unparseable session file is treated exactly like a
missing one: load yields nothing, resume reports NOT_FOUND, cancel is a
no-op (no logging, no deletion) and log append is a silent no-op. -/
theorem C10_corrupt_as_missing (e : Env) (p : ResumeProv) (w : World) (id code msg : String)
    (h : store_get w.store id = some FileContent.corrupt) :
    _load_onb w.store id = none ∧
    ui_confirm_code e p w id code = (Outcome.NOT_FOUND, w) ∧
    ui_cancel e w id = (Outcome.CANCELED, w) ∧
    _append_log e w id msg = w := by
  have hl : _load_onb w.store id = none := load_of_get_corrupt h
  exact ⟨hl, by simp [ui_confirm_code, hl], by simp [ui_cancel, hl],
    append_log_absent e msg hl⟩

theorem C10_corrupt_as_missing_witness :
    store_get wCorrupt.store "bad" = some FileContent.corrupt ∧
    (_load_onb wCorrupt.store "bad" = none ∧
     ui_confirm_code envA pRej wCorrupt "bad" "000000" = (Outcome.NOT_FOUND, wCorrupt) ∧
     ui_cancel envA wCorrupt "bad" = (Outcome.CANCELED, wCorrupt) ∧
     _append_log envA wCorrupt "bad" "x" = wCorrupt) :=
  ⟨rfl, C10_corrupt_as_missing envA pRej wCorrupt "bad" "000000" "x" rfl⟩

/-- C3 counterexample: on the minimal failed resume of a NEED_CODE session
(two-factor, stub resolution returning false, no warnings) the outcome is
FAILURE, but the log grows by TWO entries (the received-code entry and the
error entry), so the mutation is not one appended log entry as the claim
states. -/
theorem C3_counterexample :
    (ui_confirm_code envA pRej wTF "sid" "111111").1 =
      Outcome.FAILURE (some "sid") "2FA não aceito" ∧
    dTF.logs.length = 0 ∧
    ((_load_onb (ui_confirm_code envA pRej wTF "sid" "111111").2.store "sid").getD
        emptyDict).logs.length = 2 :=
  ⟨rfl, rfl, rfl⟩

/-- C3 (amended): on a resume of an existing NEED_CODE session where the
code is not accepted, the outcome is FAILURE and the session record is
neither deleted nor reset — status stays NEED_CODE, flow and the
credential fields are unchanged, no other store key is touched, the sink is
untouched, and the only mutation is one or more appended log entries (at
least the received-code entry and the error entry) — so a subsequent
resume with an accepting provider succeeds and deletes the session. -/
theorem C3_amended {w : World} {id : String} {d : OnbData} (e : Env) (p : ResumeProv)
    (code : String) (h : _load_onb w.store id = some d) (hst : d.status = "NEED_CODE")
    (hfail : resumeAccepts d.flow p = false) :
    (∃ m, (ui_confirm_code e p w id code).1 = Outcome.FAILURE (some id) m) ∧
    (ui_confirm_code e p w id code).2.sink = w.sink ∧
    (∃ d2, _load_onb (ui_confirm_code e p w id code).2.store id = some d2 ∧
      d2.status = "NEED_CODE" ∧ d2.flow = d.flow ∧ d2.username = d.username ∧
      d2.password = d.password ∧ d2.proxy = d.proxy ∧
      ∃ L, L ≠ [] ∧ d2.logs = d.logs ++ L) ∧
    (∀ k2, k2 ≠ id →
      store_get (ui_confirm_code e p w id code).2.store k2 = store_get w.store k2) ∧
    (∀ e2 p2 code2, resumeAccepts d.flow p2 = true →
      (ui_confirm_code e2 p2 (ui_confirm_code e p w id code).2 id code2).1 =
        Outcome.SUCCESS ∧
      store_get (ui_confirm_code e2 p2 (ui_confirm_code e p w id code).2 id code2).2.store
        id = none) := by
  obtain ⟨m, L, n, hL, hs⟩ := resume_failure e p code h hfail
  rw [hs]
  refine ⟨⟨m, rfl⟩, by simp [midWorld], ?_, ?_, ?_⟩
  · refine ⟨_, load_mid w id _ [] (resumeCalls d.flow p code) n, ?_, rfl, rfl, rfl, rfl,
      L, hL, rfl⟩
    show d.status = "NEED_CODE"
    exact hst
  · intro k2 hk
    show store_get (store_set w.store id _) k2 = store_get w.store k2
    exact store_get_set_ne w.store _ hk
  · intro e2 p2 code2 hacc
    have hload2 : _load_onb
        (midWorld w id { d with logs := d.logs ++ L } [] (resumeCalls d.flow p code) n).store
        id = some { d with logs := d.logs ++ L } :=
      load_mid w id _ [] (resumeCalls d.flow p code) n
    have hacc2 : resumeAccepts ({ d with logs := d.logs ++ L } : OnbData).flow p2 = true :=
      hacc
    obtain ⟨n2, hs2⟩ := resume_success e2 p2 code2 hload2 hacc2
    rw [hs2]
    exact ⟨rfl, store_get_del_self _ id⟩

theorem C3_amended_witness :
    _load_onb wTF.store "sid" = some dTF ∧ dTF.status = "NEED_CODE" ∧
    resumeAccepts dTF.flow pRej = false ∧
    (ui_confirm_code envA pRej wTF "sid" "111111").2.sink = wTF.sink :=
  ⟨rfl, rfl, rfl, (@C3_amended wTF "sid" dTF envA pRej "111111" rfl rfl rfl).2.1⟩

/-- C5 counterexample: a resume on a session whose status is INIT (null
flow) does carry out a resolution attempt — it runs the provider login and
the explicit challenge_resolve with the supplied code — and here it even
completes the login: the account is registered and the session deleted. -/
theorem C5_counterexample :
    dInit.status = "INIT" ∧ dInit.flow = none ∧
    (ui_confirm_code envA pAcc wInit "sid" "123456").1 = Outcome.SUCCESS ∧
    (ui_confirm_code envA pAcc wInit "sid" "123456").2.calls =
      [PCall.loginCall, PCall.challengeResolvePos "123456"] ∧
    store_get (ui_confirm_code envA pAcc wInit "sid" "123456").2.store "sid" = none ∧
    (ui_confirm_code envA pAcc wInit "sid" "123456").2.sink = [("u", "pw", none)] :=
  ⟨rfl, rfl, rfl, rfl, rfl, rfl⟩

/-- C5 (amended): resume branches on flow, never on status, so a session
left in INIT by a generic start failure (null flow) is processed through
the CHALLENGE branch: a resume call on its id does carry out a resolution
attempt — the provider login runs, followed (when the login-with-handler
step does not succeed) by the explicit challenge-resolution fallback; the
non-retryability of INIT sessions holds only at the UI level, which offers
no resume form after a generic start failure. -/
theorem C5_amended {w : World} {id : String} {d : OnbData} (e : Env) (p : ResumeProv)
    (code : String) (h : _load_onb w.store id = some d) (_hst : d.status = "INIT")
    (hfl : d.flow = none) :
    (ui_confirm_code e p w id code).2.calls =
      w.calls ++ PCall.loginCall :: resolveCallsCh p code := by
  have hf : ¬d.flow = some "TWO_FACTOR" := by rw [hfl]; simp
  by_cases hacc : resumeAccepts d.flow p = true
  · obtain ⟨n, hs⟩ := resume_success e p code h hacc
    rw [hs]
    show w.calls ++ resumeCalls d.flow p code = _
    simp [resumeCalls, hf]
  · have hacc2 : resumeAccepts d.flow p = false := by
      revert hacc; cases resumeAccepts d.flow p <;> simp
    obtain ⟨m, L, n, hL, hs⟩ := resume_failure e p code h hacc2
    rw [hs]
    show (midWorld w id _ [] (resumeCalls d.flow p code) n).calls = _
    simp [midWorld, resumeCalls, hf]

theorem C5_amended_witness :
    _load_onb wInit.store "sid" = some dInit ∧ dInit.status = "INIT" ∧
    dInit.flow = none ∧
    (ui_confirm_code envA pAcc wInit "sid" "123456").2.calls =
      wInit.calls ++ PCall.loginCall :: resolveCallsCh pAcc "123456" :=
  ⟨rfl, rfl, rfl, C5_amended envA pAcc "123456" rfl rfl rfl⟩

/-- C9: in the CHALLENGE resume branch, when the login-with-handler step
does not yield success, the fallback always tries the positional
convention first, and the named convention runs exactly when the
positional call raised TypeError; if the handler path and the fallback
both fail, the outcome is FAILURE with the code-not-accepted message and
the session record stays in NEED_CODE with flow CHALLENGE. -/
theorem C9_fallback_conventions {w : World} {id : String} {d : OnbData} (e : Env)
    (p : ResumeProv) (code : String) (h : _load_onb w.store id = some d)
    (hfl : d.flow = some "CHALLENGE") (hst : d.status = "NEED_CODE")
    (hl : chLoginOk p.chLogin = false) :
    ((ui_confirm_code e p w id code).2.calls =
      w.calls ++ [PCall.loginCall, PCall.challengeResolvePos code] ++
        namedSuffix p.chResolve code) ∧
    (∀ second, p.chResolve = ChResolve.typeErrorThen second →
      namedSuffix p.chResolve code = [PCall.challengeResolveNamed code]) ∧
    (∀ b, p.chResolve = ChResolve.ok b → namedSuffix p.chResolve code = []) ∧
    (∀ m2, p.chResolve = ChResolve.raises m2 → namedSuffix p.chResolve code = []) ∧
    (chResolveOk p.chResolve = false →
      (ui_confirm_code e p w id code).1 =
        Outcome.FAILURE (some id) "Challenge não aceito" ∧
      ∃ d2, _load_onb (ui_confirm_code e p w id code).2.store id = some d2 ∧
        d2.status = "NEED_CODE" ∧ d2.flow = some "CHALLENGE") := by
  have hf : ¬d.flow = some "TWO_FACTOR" := by rw [hfl]; simp
  refine ⟨?_, ?_, ?_, ?_, ?_⟩
  · by_cases hacc : resumeAccepts d.flow p = true
    · obtain ⟨n, hs⟩ := resume_success e p code h hacc
      rw [hs]
      show w.calls ++ resumeCalls d.flow p code = _
      simp [resumeCalls, hf, resolveCallsCh, hl, fallbackCalls]
    · have hacc2 : resumeAccepts d.flow p = false := by
        revert hacc; cases resumeAccepts d.flow p <;> simp
      obtain ⟨m, L, n, hL, hs⟩ := resume_failure e p code h hacc2
      rw [hs]
      show (midWorld w id _ [] (resumeCalls d.flow p code) n).calls = _
      simp [midWorld, resumeCalls, hf, resolveCallsCh, hl, fallbackCalls]
  · intro second hsec
    simp [namedSuffix, hsec]
  · intro b hb
    simp [namedSuffix, hb]
  · intro m2 hm
    simp [namedSuffix, hm]
  · intro hr
    obtain ⟨L, n, hL, hs⟩ := resume_ch_failure e p code h hf hl hr
    rw [hs]
    refine ⟨rfl, _, load_mid w id _ [] (PCall.loginCall :: resolveCallsCh p code) n, ?_, ?_⟩
    · show d.status = "NEED_CODE"
      exact hst
    · show d.flow = some "CHALLENGE"
      exact hfl

theorem C9_fallback_conventions_witness :
    _load_onb wCh.store "sid" = some dCh ∧ dCh.flow = some "CHALLENGE" ∧
    dCh.status = "NEED_CODE" ∧ chLoginOk pTypeErr.chLogin = false ∧
    (ui_confirm_code envA pTypeErr wCh "sid" "654321").2.calls =
      wCh.calls ++ [PCall.loginCall, PCall.challengeResolvePos "654321"] ++
        namedSuffix pTypeErr.chResolve "654321" :=
  ⟨rfl, rfl, rfl, rfl,
   (@C9_fallback_conventions wCh "sid" dCh envA pTypeErr "654321" rfl rfl rfl rfl).1⟩
